import Mathlib

/-!
Shallow embedding of `src/leanloader.c` (martona/leanloader).

Pointers and unsigned 32-bit machine values are modelled as `Nat` (0 is the
null pointer); `u32` arithmetic is performed with explicit `% 2^32`; the
signed 32-bit `stride` field is modelled as an `Int` obtained by reinterpreting
the low 32 bits (`i32ofU32`).

The external collaborators (kernel32, the symbol-resolution primitive from the
getprocaddress submodule, and GDI+) are modelled by an `Oracle` that fixes the
values every external call returns / writes through its out-parameters.  Every
invocation of an external entry point is recorded in a trace (`NativeCall`);
each trace entry records the function-pointer value it was invoked through, so
that "a null function pointer was called" is an inspectable event.

The global `env_t` struct is threaded explicitly: each embedded function takes
the current `env_t` and returns the updated one together with its C return
value and the trace of native calls it made.
-/

/-- The `BitmapData` struct: w, h, stride, PixelFormat, ptr, Reserved. -/
structure BitmapData where
  w : Nat
  h : Nat
  stride : Int
  PixelFormat : Nat
  ptr : Nat
  Reserved : Nat
deriving DecidableEq, Repr

/-- The `leanloader_image_info` struct: name, bd, gpbitmap. -/
structure leanloader_image_info where
  name : Nat
  bd : BitmapData
  gpbitmap : Nat
deriving DecidableEq, Repr

/-- The global `env_t` struct: session token, reference count, the two module
handles and the thirteen resolved function-pointer values. -/
structure env_t where
  token : Nat
  refcnt : Nat
  kernel32 : Nat
  gdiplus : Nat
  GetProcAddress : Nat
  LoadLibraryA : Nat
  FreeLibrary : Nat
  GlobalAlloc : Nat
  GlobalFree : Nat
  GdipStartup : Nat
  GdipShutdown : Nat
  GdipCreateBitmapFromFile : Nat
  GdipDisposeImage : Nat
  GdipGetImageWidth : Nat
  GdipGetImageHeight : Nat
  GdipBitmapLockBits : Nat
  GdipBitmapUnlockBits : Nat
deriving DecidableEq, Repr

/-- Behaviour of the external world: what each external call returns, and what
it writes through its out-parameters.  The externals are stateless here (the
spec treats them as opaque capabilities with fixed signatures). -/
structure Oracle where
  /-- result of `get_kernel32_modulehandle()` -/
  kernel32Handle : Nat
  /-- result of `get_getprocaddress(kernel32)` (pointer value of the resolver) -/
  getProcAddressFn : Nat
  /-- `GetProcAddress(module, name)`: resolved entry-point value, 0 on failure -/
  resolve : Nat → String → Nat
  /-- `LoadLibraryA(name)`: module handle, 0 on failure -/
  loadLibrary : String → Nat
  /-- token written through `GdiplusStartup`'s first out-parameter -/
  startupToken : Nat
  /-- status returned by `GdiplusStartup` -/
  startupStatus : Nat
  /-- `GdipCreateBitmapFromFile(name, &bmp)`: (value written to bmp, status) -/
  createBitmapFromFile : Nat → Nat × Nat
  /-- `GdipGetImageWidth(bmp, &w)`: (value written to w, status) -/
  getImageWidth : Nat → Nat × Nat
  /-- `GdipGetImageHeight(bmp, &h)`: (value written to h, status) -/
  getImageHeight : Nat → Nat × Nat
  /-- `GlobalAlloc(flags, size)`: pointer, 0 on failure -/
  globalAlloc : Nat → Nat → Nat
  /-- status returned by `GdipBitmapLockBits` on a given bitmap -/
  lockBitsStatus : Nat → Nat

/-- One invocation of an external entry point.  The first `Nat` of each
function-pointer call is the pointer value the call went through. -/
inductive NativeCall where
  | getKernel32Handle
  | getGetProcAddress (kernel32 : Nat)
  | getProcAddressCall (fptr module : Nat) (name : String)
  | loadLibraryCall (fptr : Nat) (name : String)
  | freeLibraryCall (fptr module : Nat)
  | gdipStartupCall (fptr : Nat)
  | gdipShutdownCall (fptr token : Nat)
  | gdipCreateBitmapFromFileCall (fptr name : Nat)
  | gdipDisposeImageCall (fptr image : Nat)
  | gdipGetImageWidthCall (fptr image : Nat)
  | gdipGetImageHeightCall (fptr image : Nat)
  | globalAllocCall (fptr flags size : Nat)
  | globalFreeCall (fptr p : Nat)
  | gdipLockBitsCall (fptr image flags format bufPtr : Nat)
  | gdipUnlockBitsCall (fptr image bufPtr : Nat)
deriving DecidableEq, Repr

/-- Result of `leanloader_env_init` / `leanloader_env_deinit`: the updated
global struct, the C return value (`env.refcnt`), and the native calls made. -/
structure EnvResult where
  env : env_t
  ret : Nat
  trace : List NativeCall
deriving DecidableEq, Repr

/-- Result of `leanloader_load` / `leanloader_dispose`: updated global struct,
updated `leanloader_image_info`, the C return value, and the native calls. -/
structure LoadResult where
  env : env_t
  info : leanloader_image_info
  ret : Nat
  trace : List NativeCall
deriving DecidableEq, Repr

/-- Reinterpret a `u32` value (already reduced mod `2^32`) as a signed `i32`. -/
def i32ofU32 (v : Nat) : Int :=
  if v < 2 ^ 31 then (v : Int) else (v : Int) - 2 ^ 32

/-- `leanloader_env_init` (leanloader.c:100-130).  On `refcnt == 0`: obtain the
kernel32 handle and the resolver, resolve four kernel entry points (results
unchecked), load `gdiplus.dll`; if that handle is non-null resolve eight GDI+
entry points (results unchecked) and invoke `GdiplusStartup` with the fixed
input `{1,0,0,0}`; on status 0 increment `refcnt`, otherwise free the gdiplus
module.  On `refcnt > 0`: just increment.  Returns `env.refcnt`. -/
def leanloader_env_init (o : Oracle) (e : env_t) : EnvResult :=
  if e.refcnt = 0 then
    let k32 := o.kernel32Handle
    let gpa := o.getProcAddressFn
    let e1 : env_t :=
      { e with
        kernel32 := k32
        GetProcAddress := gpa
        LoadLibraryA := o.resolve k32 "LoadLibraryA"
        FreeLibrary := o.resolve k32 "FreeLibrary"
        GlobalAlloc := o.resolve k32 "GlobalAlloc"
        GlobalFree := o.resolve k32 "GlobalFree" }
    let gdip := o.loadLibrary "gdiplus.dll"
    let e2 : env_t := { e1 with gdiplus := gdip }
    let t0 : List NativeCall :=
      [NativeCall.getKernel32Handle,
       NativeCall.getGetProcAddress k32,
       NativeCall.getProcAddressCall gpa k32 "LoadLibraryA",
       NativeCall.getProcAddressCall gpa k32 "FreeLibrary",
       NativeCall.getProcAddressCall gpa k32 "GlobalAlloc",
       NativeCall.getProcAddressCall gpa k32 "GlobalFree",
       NativeCall.loadLibraryCall e1.LoadLibraryA "gdiplus.dll"]
    if gdip ≠ 0 then
      let e3 : env_t :=
        { e2 with
          GdipStartup := o.resolve gdip "GdiplusStartup"
          GdipShutdown := o.resolve gdip "GdiplusShutdown"
          GdipCreateBitmapFromFile := o.resolve gdip "GdipCreateBitmapFromFile"
          GdipDisposeImage := o.resolve gdip "GdipDisposeImage"
          GdipGetImageWidth := o.resolve gdip "GdipGetImageWidth"
          GdipGetImageHeight := o.resolve gdip "GdipGetImageHeight"
          GdipBitmapLockBits := o.resolve gdip "GdipBitmapLockBits"
          GdipBitmapUnlockBits := o.resolve gdip "GdipBitmapUnlockBits" }
      let t1 : List NativeCall := t0 ++
        [NativeCall.getProcAddressCall gpa gdip "GdiplusStartup",
         NativeCall.getProcAddressCall gpa gdip "GdiplusShutdown",
         NativeCall.getProcAddressCall gpa gdip "GdipCreateBitmapFromFile",
         NativeCall.getProcAddressCall gpa gdip "GdipDisposeImage",
         NativeCall.getProcAddressCall gpa gdip "GdipGetImageWidth",
         NativeCall.getProcAddressCall gpa gdip "GdipGetImageHeight",
         NativeCall.getProcAddressCall gpa gdip "GdipBitmapLockBits",
         NativeCall.getProcAddressCall gpa gdip "GdipBitmapUnlockBits",
         NativeCall.gdipStartupCall e3.GdipStartup]
      let e4 : env_t := { e3 with token := o.startupToken }
      if o.startupStatus = 0 then
        let e5 : env_t := { e4 with refcnt := e4.refcnt + 1 }
        ⟨e5, e5.refcnt, t1⟩
      else
        ⟨e4, e4.refcnt, t1 ++ [NativeCall.freeLibraryCall e4.FreeLibrary gdip]⟩
    else
      ⟨e2, e2.refcnt, t0⟩
  else
    let e1 : env_t := { e with refcnt := e.refcnt + 1 }
    ⟨e1, e1.refcnt, []⟩

/-- `leanloader_env_deinit` (leanloader.c:133-142).  If `refcnt > 0` decrement
it; if it thereby reaches 0, call `GdipShutdown(token)` and
`FreeLibrary(gdiplus)`.  Returns `env.refcnt`. -/
def leanloader_env_deinit (e : env_t) : EnvResult :=
  if e.refcnt > 0 then
    let e1 : env_t := { e with refcnt := e.refcnt - 1 }
    if e1.refcnt = 0 then
      ⟨e1, 0, [NativeCall.gdipShutdownCall e.GdipShutdown e.token,
               NativeCall.freeLibraryCall e.FreeLibrary e.gdiplus]⟩
    else
      ⟨e1, e1.refcnt, []⟩
  else
    ⟨e, e.refcnt, []⟩

/-- `leanloader_load` (leanloader.c:145-182), with all five stages and every
unwind path exactly as in the source.  `u32` arithmetic wraps at each
operation; `& ~63` on a `u32` is `Nat.land` with `2^32 - 64`.  Note that on
the measure/allocate/lock failure paths the source disposes the native image
but does not null `info.gpbitmap`, and on the lock failure path it frees the
buffer but does not null `info.bd.ptr`; no failure path calls
`leanloader_env_deinit`. -/
def leanloader_load (o : Oracle) (e : env_t) (info0 : leanloader_image_info) :
    LoadResult :=
  let info := { info0 with gpbitmap := 0 }
  let ir := leanloader_env_init o e
  let e := ir.env
  if ir.ret ≠ 0 then
    let cr := o.createBitmapFromFile info.name
    let info := { info with gpbitmap := cr.1 }
    let t1 := ir.trace ++
      [NativeCall.gdipCreateBitmapFromFileCall e.GdipCreateBitmapFromFile info.name]
    if cr.2 = 0 then
      let wr := o.getImageWidth info.gpbitmap
      let info := { info with bd := { info.bd with w := wr.1 % 2 ^ 32 } }
      let t2 := t1 ++ [NativeCall.gdipGetImageWidthCall e.GdipGetImageWidth info.gpbitmap]
      if wr.2 = 0 then
        let hr := o.getImageHeight info.gpbitmap
        let info := { info with bd := { info.bd with h := hr.1 % 2 ^ 32 } }
        let t3 := t2 ++ [NativeCall.gdipGetImageHeightCall e.GdipGetImageHeight info.gpbitmap]
        if hr.2 = 0 then
          let GPTR : Nat := 0x0040
          -- (info->bd.w * info->bd.h * 4) + 63 & ~63, evaluated in u32
          let allocSize : Nat :=
            Nat.land ((info.bd.w * info.bd.h % 2 ^ 32 * 4 % 2 ^ 32 + 63) % 2 ^ 32)
              (2 ^ 32 - 64)
          let info := { info with bd := { info.bd with ptr := o.globalAlloc GPTR allocSize } }
          let t4 := t3 ++ [NativeCall.globalAllocCall e.GlobalAlloc GPTR allocSize]
          if info.bd.ptr ≠ 0 then
            let flags : Nat := 0x0001 ||| 0x0002 ||| 0x0004
            let PixelFormat32bppARGB : Nat := 0x0026200a
            let info :=
              { info with bd :=
                { info.bd with
                  PixelFormat := PixelFormat32bppARGB
                  stride := i32ofU32 (info.bd.w * 4 % 2 ^ 32) } }
            -- Rect rect = {0, 0, w, h} is built here and passed to LockBits
            let status := o.lockBitsStatus info.gpbitmap
            let t5 := t4 ++
              [NativeCall.gdipLockBitsCall e.GdipBitmapLockBits info.gpbitmap flags
                PixelFormat32bppARGB info.bd.ptr]
            if status = 0 then
              ⟨e, info, 1, t5⟩
            else
              ⟨e, info, 0, t5 ++
                [NativeCall.globalFreeCall e.GlobalFree info.bd.ptr,
                 NativeCall.gdipDisposeImageCall e.GdipDisposeImage info.gpbitmap]⟩
          else
            ⟨e, info, 0, t4 ++
              [NativeCall.gdipDisposeImageCall e.GdipDisposeImage info.gpbitmap]⟩
        else
          ⟨e, info, 0, t3 ++
            [NativeCall.gdipDisposeImageCall e.GdipDisposeImage info.gpbitmap]⟩
      else
        ⟨e, info, 0, t2 ++
          [NativeCall.gdipDisposeImageCall e.GdipDisposeImage info.gpbitmap]⟩
    else
      ⟨e, info, 0, t1⟩
  else
    ⟨e, info, 0, ir.trace⟩

/-- `leanloader_dispose` (leanloader.c:185-197).  If `gpbitmap` is non-null:
if `bd.ptr` is non-null, call `GdipBitmapUnlockBits` and `GlobalFree` and null
`bd.ptr`; then call `GdipDisposeImage` and null `gpbitmap`.  Unconditionally
call `leanloader_env_deinit`.  Returns 0. -/
def leanloader_dispose (e : env_t) (info : leanloader_image_info) : LoadResult :=
  let step :=
    if info.gpbitmap ≠ 0 then
      let inner :=
        if info.bd.ptr ≠ 0 then
          ({ info with bd := { info.bd with ptr := 0 } },
           [NativeCall.gdipUnlockBitsCall e.GdipBitmapUnlockBits info.gpbitmap info.bd.ptr,
            NativeCall.globalFreeCall e.GlobalFree info.bd.ptr])
        else (info, ([] : List NativeCall))
      ({ inner.1 with gpbitmap := 0 },
       inner.2 ++ [NativeCall.gdipDisposeImageCall e.GdipDisposeImage info.gpbitmap])
    else (info, ([] : List NativeCall))
  let dr := leanloader_env_deinit e
  ⟨dr.env, step.1, 0, step.2 ++ dr.trace⟩

/-- Next multiple of 64 at or above `x` (the spec's `ceil(x/64)*64`). -/
def roundUp64 (x : Nat) : Nat := 64 * ((x + 63) / 64)

/-- The zero-initialized global `env_t` (`static env_t env = {0}`). -/
def env0 : env_t := ⟨0, 0, 0, 0, 0, 0, 0, 0, 0, 0, 0, 0, 0, 0, 0, 0, 0⟩

/-- A zero-initialized `leanloader_image_info` whose `name` field points at 9. -/
def info0 : leanloader_image_info := ⟨9, ⟨0, 0, 0, 0, 0, 0⟩, 0⟩

/-- A handle state with a non-null buffer pointer but a null image handle. -/
def infoBufNoImg : leanloader_image_info := ⟨9, ⟨0, 0, 0, 0, 5, 0⟩, 0⟩

/-- The global `env_t` with two live references (and no resolved pointers,
which the dispose path does not consult before `refcnt` reaches 0). -/
def env2 : env_t := { env0 with refcnt := 2 }

/-- An external world in which everything succeeds: every symbol resolves to
the pointer value 3, `gdiplus.dll` loads as module 4, startup yields token 5
with status 0, decode yields bitmap 7, the image is 10×10, `GlobalAlloc`
returns pointer 42 and `GdipBitmapLockBits` returns status 0. -/
def oracleBase : Oracle :=
  { kernel32Handle := 1
    getProcAddressFn := 2
    resolve := fun _ _ => 3
    loadLibrary := fun _ => 4
    startupToken := 5
    startupStatus := 0
    createBitmapFromFile := fun _ => (7, 0)
    getImageWidth := fun _ => (10, 0)
    getImageHeight := fun _ => (10, 0)
    globalAlloc := fun _ _ => 42
    lockBitsStatus := fun _ => 0 }

/-- `oracleBase`, except `GdipCreateBitmapFromFile` fails with status 2
(writing nothing, i.e. 0, through its out-parameter). -/
def oracleDecodeFail : Oracle :=
  { oracleBase with createBitmapFromFile := fun _ => (0, 2) }

/-- `oracleBase`, except resolving `"GdiplusStartup"` fails (returns the null
pointer 0); every other symbol still resolves to 3. -/
def oracleNullStartupResolve : Oracle :=
  { oracleBase with resolve := fun _ n => if n = "GdiplusStartup" then 0 else 3 }

/-- `oracleBase`, except `GdipGetImageWidth` fails with status 5. -/
def oracleWidthFail : Oracle :=
  { oracleBase with getImageWidth := fun _ => (0, 5) }

/-- `oracleBase`, except the image is 1×1 and `GdipBitmapLockBits` fails with
status 9. -/
def oracleLockFail : Oracle :=
  { oracleBase with
    getImageWidth := fun _ => (1, 0)
    getImageHeight := fun _ => (1, 0)
    lockBitsStatus := fun _ => 9 }

/-- `oracleBase`, except the image is 2^30 × 1, so that `w*h*4 = 2^32` wraps
to 0 in the `u32` size and stride computations. -/
def oracleWide : Oracle :=
  { oracleBase with
    getImageWidth := fun _ => (2 ^ 30, 0)
    getImageHeight := fun _ => (1, 0) }

/-- `oracleBase`, except the image is (2^31 - 1) × 1, so that
`w*h*4 mod 2^32 = 2^32 - 4` and the `+ 63` wraps a second time. -/
def oracleHuge : Oracle :=
  { oracleBase with
    getImageWidth := fun _ => (2 ^ 31 - 1, 0)
    getImageHeight := fun _ => (1, 0) }

/-- A registry operation: one `leanloader_env_init` (ensureReady) or one
`leanloader_env_deinit` (release) call. -/
inductive RegOp where
  | acquire
  | release
deriving DecidableEq, Repr

/-- Apply one registry operation to the global struct. -/
def applyRegOp (o : Oracle) (e : env_t) : RegOp → env_t × List NativeCall
  | RegOp.acquire => let r := leanloader_env_init o e; (r.env, r.trace)
  | RegOp.release => let r := leanloader_env_deinit e; (r.env, r.trace)

/-- Run a sequence of registry operations, accumulating the native-call
trace. -/
def runRegOps (o : Oracle) (e : env_t) : List RegOp → env_t × List NativeCall
  | [] => (e, [])
  | op :: rest =>
    let s := applyRegOp o e op
    let r := runRegOps o s.1 rest
    (r.1, s.2 ++ r.2)

/-- Is this native call an invocation of the subsystem startup entry point? -/
def isStartupCall : NativeCall → Bool
  | NativeCall.gdipStartupCall _ => true
  | _ => false

/-- Is this native call an invocation of the subsystem shutdown entry point? -/
def isShutdownCall : NativeCall → Bool
  | NativeCall.gdipShutdownCall _ _ => true
  | _ => false

/-- Number of subsystem startup invocations in a trace. -/
def countStartups (t : List NativeCall) : Nat := t.countP isStartupCall

/-- Number of subsystem shutdown invocations in a trace. -/
def countShutdowns (t : List NativeCall) : Nat := t.countP isShutdownCall

/-- Is this native call an unlock-bits, raw-free or dispose-image call (the
calls that act on the buffer or the image)? -/
def touchesBufferOrImage : NativeCall → Bool
  | NativeCall.gdipUnlockBitsCall _ _ _ => true
  | NativeCall.globalFreeCall _ _ => true
  | NativeCall.gdipDisposeImageCall _ _ => true
  | _ => false

/-- Is this native call a `GlobalAlloc` invocation? -/
def isGlobalAllocCall : NativeCall → Bool
  | NativeCall.globalAllocCall _ _ _ => true
  | _ => false

/-- Modelled from the claim's wording (claim C6), for comparison with
`leanloader_dispose`: first, conditional only on `bd.ptr` being non-null,
unlock-bits then raw-free then null `bd.ptr`; then, conditional on `gpbitmap`
being non-null, dispose-image and null it; then unconditionally release the
registry reference. -/
def dispose_as_claimed (e : env_t) (info : leanloader_image_info) : LoadResult :=
  let s1 :=
    if info.bd.ptr ≠ 0 then
      ({ info with bd := { info.bd with ptr := 0 } },
       [NativeCall.gdipUnlockBitsCall e.GdipBitmapUnlockBits info.gpbitmap info.bd.ptr,
        NativeCall.globalFreeCall e.GlobalFree info.bd.ptr])
    else (info, ([] : List NativeCall))
  let s2 :=
    if s1.1.gpbitmap ≠ 0 then
      ({ s1.1 with gpbitmap := 0 },
       [NativeCall.gdipDisposeImageCall e.GdipDisposeImage s1.1.gpbitmap])
    else (s1.1, ([] : List NativeCall))
  let dr := leanloader_env_deinit e
  ⟨dr.env, s2.1, 0, s1.2 ++ s2.2 ++ dr.trace⟩

/-- `oracleBase`, except loading `gdiplus.dll` fails (returns module 0). -/
def oracleGdipLoadFail : Oracle :=
  { oracleBase with loadLibrary := fun _ => 0 }

/-- `oracleBase`, except the image is 2^30 × 2, so `w*h*4 = 2^33 ≥ 2^32`
wraps to 0 mod `2^32` (a multiple of 64, so the `+63` does not wrap again). -/
def oracleTall : Oracle :=
  { oracleBase with
    getImageWidth := fun _ => (2 ^ 30, 0)
    getImageHeight := fun _ => (2, 0) }

/-- For a `u32` value, `x & ~63` (the mask `2^32 - 64`) clears the low six
bits, i.e. rounds `x` down to a multiple of 64. -/
theorem land_mask64 (x : Nat) (hx : x < 2 ^ 32) :
    Nat.land x (2 ^ 32 - 64) = 64 * (x / 64) := by
  apply Nat.eq_of_testBit_eq
  intro i
  rw [show Nat.land x (2 ^ 32 - 64) = x &&& (2 ^ 32 - 64) from rfl, Nat.testBit_land,
      show (2 ^ 32 - 64 : Nat) = 2 ^ 6 * (2 ^ 26 - 1) by norm_num,
      Nat.testBit_mul_pow_two,
      show 64 * (x / 64) = 2 ^ 6 * (x / 2 ^ 6) by norm_num,
      Nat.testBit_mul_pow_two,
      show x / 2 ^ 6 = x >>> 6 from (Nat.shiftRight_eq_div_pow x 6).symm,
      Nat.testBit_shiftRight, Nat.testBit_two_pow_sub_one]
  by_cases h6 : 6 ≤ i
  · have h66 : 6 + (i - 6) = i := by omega
    rw [h66]
    by_cases h32 : i < 32
    · have : i - 6 < 26 := by omega
      simp [h6, this]
    · have hb : x.testBit i = false :=
        Nat.testBit_lt_two_pow
          (lt_of_lt_of_le hx (Nat.pow_le_pow_right (by norm_num) (by omega)))
      simp [hb]
  · simp [h6]

/-- Claim C1 is false on the code: with an external world in which the
registry initializes successfully but decode (`GdipCreateBitmapFromFile`)
fails with status 2, `leanloader_load` returns 0 yet the registry's reference
count has gone from 0 to 1 — no failure path of `leanloader_load` calls
`leanloader_env_deinit`. -/
theorem C1_counterexample_failed_decode_leaves_reference :
    (leanloader_load oracleDecodeFail env0 info0).ret = 0 ∧
    env0.refcnt = 0 ∧
    (leanloader_load oracleDecodeFail env0 info0).env.refcnt = 1 := by
  refine ⟨by decide, by decide, by decide⟩

/-- Claim C2 is false on the code: `leanloader_env_init` never checks the
result of a symbol resolution.  With an external world in which resolving
`"GdiplusStartup"` fails (returns the null pointer 0) while everything else
succeeds, the call still invokes the null pointer as the startup entry point
and returns success (1). -/
theorem C2_counterexample_null_resolution_invoked :
    oracleNullStartupResolve.resolve 4 "GdiplusStartup" = 0 ∧
    (leanloader_env_init oracleNullStartupResolve env0).ret = 1 ∧
    NativeCall.gdipStartupCall 0 ∈
      (leanloader_env_init oracleNullStartupResolve env0).trace := by
  refine ⟨by decide, by decide, by decide⟩

/-- Claim C3 names the intended behaviour, but the code leaves a failed
handle dangling: when decode succeeds (bitmap 7) and the measure stage fails
(`GdipGetImageWidth` status 5), `leanloader_load` calls `GdipDisposeImage 7`
and returns 0 but does not null `info.gpbitmap`; the subsequent
`leanloader_dispose` then calls `GdipDisposeImage 7` a second time. -/
theorem C3_failed_load_handle_not_inert :
    (leanloader_load oracleWidthFail env0 info0).ret = 0 ∧
    (leanloader_load oracleWidthFail env0 info0).info.gpbitmap = 7 ∧
    NativeCall.gdipDisposeImageCall 3 7 ∈
      (leanloader_load oracleWidthFail env0 info0).trace ∧
    NativeCall.gdipDisposeImageCall 3 7 ∈
      (leanloader_dispose (leanloader_load oracleWidthFail env0 info0).env
        (leanloader_load oracleWidthFail env0 info0).info).trace := by
  refine ⟨by decide, by decide, by decide, by decide⟩

/-- Claim C4 names the intended invariant, but the code breaks it on the
lock-failure path: with a 1×1 image, `GlobalAlloc` returning pointer 42 and
`GdipBitmapLockBits` failing with status 9, `leanloader_load` frees the
buffer (`GlobalFree 42`) yet returns with `info.bd.ptr = 42` still non-null,
although the lock call did not succeed. -/
theorem C4_stale_buffer_pointer_after_lock_failure :
    (leanloader_load oracleLockFail env0 info0).ret = 0 ∧
    (leanloader_load oracleLockFail env0 info0).info.bd.ptr = 42 ∧
    oracleLockFail.lockBitsStatus 7 = 9 ∧
    NativeCall.globalFreeCall 3 42 ∈
      (leanloader_load oracleLockFail env0 info0).trace := by
  refine ⟨by decide, by decide, by decide, by decide⟩

/-- Claim C5 is false as stated (over every successful acquisition): with a
2^30 × 1 image and an external world granting success throughout, the load
succeeds, yet the stride is 0 (the `u32` product `w * 4 = 2^32` wraps to 0)
rather than `width * 4 = 2^32`, and the single size passed to `GlobalAlloc`
is 0 rather than `ceil(w*h*4 / 64) * 64 = 2^32`. -/
theorem C5_counterexample_overflow_stride_and_size :
    (leanloader_load oracleWide env0 info0).ret = 1 ∧
    (leanloader_load oracleWide env0 info0).info.bd.w = 2 ^ 30 ∧
    (leanloader_load oracleWide env0 info0).info.bd.h = 1 ∧
    (leanloader_load oracleWide env0 info0).info.bd.stride = 0 ∧
    (leanloader_load oracleWide env0 info0).trace.countP isGlobalAllocCall = 1 ∧
    NativeCall.globalAllocCall 3 64 0 ∈ (leanloader_load oracleWide env0 info0).trace ∧
    (0 : Int) ≠ (2 ^ 30 * 4 : Int) ∧
    (0 : Nat) ≠ roundUp64 (2 ^ 30 * 1 * 4) := by
  refine ⟨by decide, by decide, by decide, by decide, by decide, by decide,
    by decide, by decide⟩

/-- Claim C6 is false as stated: its first step is guarded only by `bd.ptr`
being non-null, but the code guards the whole block by `gpbitmap` first.  On
a handle with a null image but a non-null buffer pointer the code performs no
native call at all, while the claimed sequence would unlock and free. -/
theorem C6_counterexample_dispose_guard_nesting :
    (leanloader_dispose env0 infoBufNoImg).trace = [] ∧
    (dispose_as_claimed env0 infoBufNoImg).trace =
      [NativeCall.gdipUnlockBitsCall 0 0 5, NativeCall.globalFreeCall 0 5] ∧
    leanloader_dispose env0 infoBufNoImg ≠ dispose_as_claimed env0 infoBufNoImg := by
  refine ⟨by decide, by decide, by decide⟩

/-- Claim C8 is false in one corner: disposing a handle whose `gpbitmap` is
null but whose `bd.ptr` is non-null completes normally (returns 0) without
touching `bd.ptr`, so the handle handed to a second dispose still has
`bd.ptr = 5 ≠ 0` — the second call does not observe both fields null. -/
theorem C8_counterexample_buffer_pointer_survives :
    (leanloader_dispose env2 infoBufNoImg).ret = 0 ∧
    (leanloader_dispose env2 infoBufNoImg).info.bd.ptr = 5 ∧
    (leanloader_dispose env2 infoBufNoImg).info.bd.ptr ≠ 0 := by
  refine ⟨by decide, by decide, by decide⟩

/-- Claim C10 is false in one corner: for width `2^31 - 1` and height 1,
`w*h*4 mod 2^32 = 2^32 - 4`, whose round-up to the next multiple of 64 is
`2^32`; but in `u32` arithmetic the `+ 63` wraps a second time and the value
actually passed to `GlobalAlloc` is 0, not `2^32`. -/
theorem C10_counterexample_corner_rounding :
    (2 ^ 31 - 1) * 1 * 4 ≥ 2 ^ 32 ∧
    (leanloader_load oracleHuge env0 info0).trace.countP isGlobalAllocCall = 1 ∧
    NativeCall.globalAllocCall 3 64 0 ∈ (leanloader_load oracleHuge env0 info0).trace ∧
    roundUp64 ((2 ^ 31 - 1) * 1 * 4 % 2 ^ 32) = 2 ^ 32 ∧
    (0 : Nat) ≠ 2 ^ 32 := by
  refine ⟨by decide, by decide, by decide, by decide, by decide⟩

theorem leanloader_env_deinit_refcnt (e : env_t) :
    (leanloader_env_deinit e).env.refcnt = e.refcnt - 1 := by
  simp only [leanloader_env_deinit]
  split_ifs <;> simp_all

theorem leanloader_env_deinit_trace_one (e : env_t) (h1 : e.refcnt = 1) :
    (leanloader_env_deinit e).trace =
      [NativeCall.gdipShutdownCall e.GdipShutdown e.token,
       NativeCall.freeLibraryCall e.FreeLibrary e.gdiplus] := by
  simp only [leanloader_env_deinit]
  split_ifs <;> simp_all

theorem leanloader_dispose_env (e : env_t) (h : leanloader_image_info) :
    (leanloader_dispose e h).env = (leanloader_env_deinit e).env := rfl

theorem leanloader_dispose_ret (e : env_t) (h : leanloader_image_info) :
    (leanloader_dispose e h).ret = 0 := rfl

theorem leanloader_dispose_gpbitmap_null (e : env_t) (h : leanloader_image_info)
    (h0 : h.gpbitmap = 0) :
    leanloader_dispose e h = ⟨(leanloader_env_deinit e).env, h, 0,
      (leanloader_env_deinit e).trace⟩ := by
  simp only [leanloader_dispose, h0]
  simp

theorem leanloader_dispose_trace (e : env_t) (h : leanloader_image_info) :
    (leanloader_dispose e h).trace =
      (if h.gpbitmap ≠ 0 then
        (if h.bd.ptr ≠ 0 then
          [NativeCall.gdipUnlockBitsCall e.GdipBitmapUnlockBits h.gpbitmap h.bd.ptr,
           NativeCall.globalFreeCall e.GlobalFree h.bd.ptr]
         else []) ++ [NativeCall.gdipDisposeImageCall e.GdipDisposeImage h.gpbitmap]
       else []) ++ (leanloader_env_deinit e).trace := by
  simp only [leanloader_dispose]
  split_ifs <;> simp

theorem leanloader_dispose_info_fields (e : env_t) (h : leanloader_image_info) :
    (leanloader_dispose e h).info.gpbitmap = 0 ∧
    (leanloader_dispose e h).info.bd.ptr =
      (if h.gpbitmap ≠ 0 ∧ h.bd.ptr ≠ 0 then 0 else h.bd.ptr) ∧
    (leanloader_dispose e h).info.name = h.name := by
  simp only [leanloader_dispose]
  split_ifs <;> simp_all

theorem leanloader_env_deinit_trace_no_touch (e : env_t) :
    ∀ c ∈ (leanloader_env_deinit e).trace, touchesBufferOrImage c = false := by
  simp only [leanloader_env_deinit]
  split_ifs <;> simp_all [touchesBufferOrImage]

theorem leanloader_env_init_refcnt_of_ret_ne_zero (o : Oracle) (e : env_t)
    (hr : (leanloader_env_init o e).ret ≠ 0) :
    (leanloader_env_init o e).env.refcnt = e.refcnt + 1 := by
  simp only [leanloader_env_init] at hr ⊢
  split_ifs at hr ⊢ <;> simp_all

theorem leanloader_load_env (o : Oracle) (e : env_t) (h : leanloader_image_info) :
    (leanloader_load o e h).env = (leanloader_env_init o e).env := by
  simp only [leanloader_load]
  split_ifs <;> rfl

/-- Claim C9: every `leanloader_dispose` call decrements the registry's
reference count by exactly one when it was positive (and leaves it at 0
otherwise), for every handle state — including a handle whose load failed or
was never called — and when the count was exactly 1 beforehand the dispose
invokes the subsystem shutdown entry point. -/
theorem C9_dispose_always_releases (e : env_t) (h : leanloader_image_info) :
    (0 < e.refcnt → (leanloader_dispose e h).env.refcnt = e.refcnt - 1) ∧
    (e.refcnt = 0 → (leanloader_dispose e h).env.refcnt = 0) ∧
    (e.refcnt = 1 →
      NativeCall.gdipShutdownCall e.GdipShutdown e.token ∈
        (leanloader_dispose e h).trace) := by
  refine ⟨?_, ?_, ?_⟩
  · intro _
    rw [leanloader_dispose_env, leanloader_env_deinit_refcnt]
  · intro h0
    rw [leanloader_dispose_env, leanloader_env_deinit_refcnt, h0]
  · intro h1
    rw [leanloader_dispose_trace, leanloader_env_deinit_trace_one e h1]
    simp

/-- Claim C9 witness: a fresh (never successfully loaded) handle disposed
while the registry holds a single live reference drops the count to 0 and
triggers the subsystem shutdown call. -/
theorem C9_dispose_always_releases_witness :
    ({ env0 with refcnt := 1 } : env_t).refcnt = 1 ∧
    (leanloader_dispose { env0 with refcnt := 1 } info0).env.refcnt = 0 ∧
    NativeCall.gdipShutdownCall 0 0 ∈
      (leanloader_dispose { env0 with refcnt := 1 } info0).trace := by
  refine ⟨rfl, ?_, ?_⟩
  · exact (C9_dispose_always_releases { env0 with refcnt := 1 } info0).1 (by decide)
  · exact (C9_dispose_always_releases { env0 with refcnt := 1 } info0).2.2 rfl

/-- Claim C8 as amended: after any first dispose the handle's `gpbitmap` is
null, so a second dispose performs no native call on the buffer or the image
(its behaviour is exactly the unconditional registry release); `bd.ptr` is
also null after the first dispose whenever that call saw `gpbitmap` non-null,
or saw `bd.ptr` already null. -/
theorem C8_second_dispose_no_native_calls (e : env_t) (h : leanloader_image_info) :
    ((leanloader_dispose e h).info.gpbitmap = 0) ∧
    (h.gpbitmap ≠ 0 → (leanloader_dispose e h).info.bd.ptr = 0) ∧
    (h.bd.ptr = 0 → (leanloader_dispose e h).info.bd.ptr = 0) ∧
    (leanloader_dispose (leanloader_dispose e h).env (leanloader_dispose e h).info =
      ⟨(leanloader_env_deinit (leanloader_dispose e h).env).env,
       (leanloader_dispose e h).info, 0,
       (leanloader_env_deinit (leanloader_dispose e h).env).trace⟩) ∧
    (∀ c ∈ (leanloader_dispose (leanloader_dispose e h).env
        (leanloader_dispose e h).info).trace, touchesBufferOrImage c = false) := by
  obtain ⟨hgp, hptr, -⟩ := leanloader_dispose_info_fields e h
  have hsecond := leanloader_dispose_gpbitmap_null (leanloader_dispose e h).env
    (leanloader_dispose e h).info hgp
  refine ⟨hgp, ?_, ?_, hsecond, ?_⟩
  · intro hne
    rw [hptr]
    split_ifs with hc
    · rfl
    · push_neg at hc
      by_cases hp : h.bd.ptr = 0
      · exact hp
      · exact absurd (hc hne) hp
  · intro hp0
    rw [hptr]
    split_ifs with hc
    · rfl
    · exact hp0
  · intro c hc
    rw [hsecond] at hc
    exact leanloader_env_deinit_trace_no_touch (leanloader_dispose e h).env c hc

/-- Claim C8 witness: a successful 10×10 load followed by a dispose leaves
both fields null, and the second dispose is exactly the registry release and
touches neither buffer nor image. -/
theorem C8_second_dispose_no_native_calls_witness :
    (leanloader_load oracleBase env0 info0).info.gpbitmap ≠ 0 ∧
    (leanloader_dispose (leanloader_load oracleBase env0 info0).env
      (leanloader_load oracleBase env0 info0).info).info.gpbitmap = 0 ∧
    (leanloader_dispose (leanloader_load oracleBase env0 info0).env
      (leanloader_load oracleBase env0 info0).info).info.bd.ptr = 0 := by
  have h := C8_second_dispose_no_native_calls
    (leanloader_load oracleBase env0 info0).env
    (leanloader_load oracleBase env0 info0).info
  exact ⟨by decide, h.1, h.2.1 (by decide)⟩

/-- Claim C6 as amended: `leanloader_dispose` performs, in this order and
with the unlock/free steps additionally guarded by `gpbitmap` being non-null
(the code checks `gpbitmap` first and only examines `bd.ptr` inside that
branch): unlock-bits then raw-free then nulling `bd.ptr` (when both `gpbitmap`
and `bd.ptr` are non-null), then dispose-image and nulling `gpbitmap` (when
`gpbitmap` is non-null), then unconditionally the registry release. -/
theorem C6_dispose_order (e : env_t) (h : leanloader_image_info) :
    (leanloader_dispose e h).trace =
      (if h.gpbitmap ≠ 0 then
        (if h.bd.ptr ≠ 0 then
          [NativeCall.gdipUnlockBitsCall e.GdipBitmapUnlockBits h.gpbitmap h.bd.ptr,
           NativeCall.globalFreeCall e.GlobalFree h.bd.ptr]
         else []) ++ [NativeCall.gdipDisposeImageCall e.GdipDisposeImage h.gpbitmap]
       else []) ++ (leanloader_env_deinit e).trace ∧
    (leanloader_dispose e h).info.bd.ptr =
      (if h.gpbitmap ≠ 0 ∧ h.bd.ptr ≠ 0 then 0 else h.bd.ptr) ∧
    (leanloader_dispose e h).info.gpbitmap = 0 ∧
    (leanloader_dispose e h).env = (leanloader_env_deinit e).env ∧
    (leanloader_dispose e h).ret = 0 := by
  obtain ⟨hgp, hptr, -⟩ := leanloader_dispose_info_fields e h
  exact ⟨leanloader_dispose_trace e h, hptr, hgp, leanloader_dispose_env e h,
    leanloader_dispose_ret e h⟩

/-- Claim C1 as amended: when an acquisition fails at stage 2-5 (the registry
init succeeded but `leanloader_load` returned 0), the registry's reference
count after the call is one MORE than before — no failure path of
`leanloader_load` releases the stage-1 reference; the release happens only in
the subsequent `leanloader_dispose`, which restores the pre-load count. -/
theorem C1_failed_load_keeps_reference (o : Oracle) (e : env_t)
    (h : leanloader_image_info)
    (hinit : (leanloader_env_init o e).ret ≠ 0)
    (_hfail : (leanloader_load o e h).ret = 0) :
    (leanloader_load o e h).env.refcnt = e.refcnt + 1 ∧
    (leanloader_dispose (leanloader_load o e h).env
      (leanloader_load o e h).info).env.refcnt = e.refcnt := by
  have h1 : (leanloader_load o e h).env.refcnt = e.refcnt + 1 := by
    rw [leanloader_load_env]
    exact leanloader_env_init_refcnt_of_ret_ne_zero o e hinit
  refine ⟨h1, ?_⟩
  rw [leanloader_dispose_env, leanloader_env_deinit_refcnt, h1]
  omega

/-- Claim C1 witness: decode failure from a fresh registry — the failed load
leaves the count at 1, and the subsequent dispose brings it back to 0. -/
theorem C1_failed_load_keeps_reference_witness :
    (leanloader_load oracleDecodeFail env0 info0).env.refcnt = env0.refcnt + 1 ∧
    (leanloader_dispose (leanloader_load oracleDecodeFail env0 info0).env
      (leanloader_load oracleDecodeFail env0 info0).info).env.refcnt = env0.refcnt :=
  C1_failed_load_keeps_reference oracleDecodeFail env0 info0 (by decide) (by decide)

/-- Claim C2 as amended: during first-time initialization, a gdiplus
module-load failure or a nonzero startup status is terminal — the call
returns 0 and the reference count stays 0; moreover when the module load
fails, no subsystem entry point is invoked at all.  (Per-symbol resolution
results, by contrast, are never checked by the code.) -/
theorem C2_module_or_startup_failure_terminal (o : Oracle) (e : env_t)
    (h0 : e.refcnt = 0)
    (hfail : o.loadLibrary "gdiplus.dll" = 0 ∨ o.startupStatus ≠ 0) :
    (leanloader_env_init o e).ret = 0 ∧
    (leanloader_env_init o e).env.refcnt = 0 ∧
    (o.loadLibrary "gdiplus.dll" = 0 →
      countStartups (leanloader_env_init o e).trace = 0) := by
  by_cases hg : o.loadLibrary "gdiplus.dll" = 0
  · simp only [leanloader_env_init, h0, if_pos rfl]
    simp [hg, countStartups, isStartupCall]
  · have hs : o.startupStatus ≠ 0 := by tauto
    simp only [leanloader_env_init, h0, if_pos rfl]
    simp [hg, hs]

/-- Claim C2 witness: the gdiplus module fails to load; init returns 0 with
the count still 0 and no subsystem startup call was made. -/
theorem C2_module_or_startup_failure_terminal_witness :
    (leanloader_env_init oracleGdipLoadFail env0).ret = 0 ∧
    (leanloader_env_init oracleGdipLoadFail env0).env.refcnt = 0 ∧
    countStartups (leanloader_env_init oracleGdipLoadFail env0).trace = 0 := by
  have h := C2_module_or_startup_failure_terminal oracleGdipLoadFail env0
    (by decide) (Or.inl (by decide))
  exact ⟨h.1, h.2.1, h.2.2 (by decide)⟩

theorem leanloader_load_success_shape (o : Oracle) (e : env_t)
    (h : leanloader_image_info)
    (hok : (leanloader_load o e h).ret = 1) :
    (leanloader_load o e h).info.bd.w =
      (o.getImageWidth (o.createBitmapFromFile h.name).1).1 % 2 ^ 32 ∧
    (leanloader_load o e h).info.bd.h =
      (o.getImageHeight (o.createBitmapFromFile h.name).1).1 % 2 ^ 32 ∧
    (leanloader_load o e h).info.bd.stride =
      i32ofU32 ((leanloader_load o e h).info.bd.w * 4 % 2 ^ 32) ∧
    NativeCall.globalAllocCall (leanloader_env_init o e).env.GlobalAlloc 64
      (Nat.land (((leanloader_load o e h).info.bd.w * (leanloader_load o e h).info.bd.h
        % 2 ^ 32 * 4 % 2 ^ 32 + 63) % 2 ^ 32) (2 ^ 32 - 64))
      ∈ (leanloader_load o e h).trace := by
  simp only [leanloader_load] at hok ⊢
  split_ifs at hok ⊢ <;> simp_all

/-- Claim C5 as amended: for every successful acquisition whose `u32`
computations do not wrap — `w*h*4 + 63 < 2^32` and `w*4 < 2^31` — the
handle's stride equals `width * 4` and the size passed to `GlobalAlloc` is
`ceil(w*h*4 / 64) * 64` (e.g. a 10×10 image yields stride 40 and size 448);
with wrapping, the stride is the `i32` cast of `w*4 mod 2^32` and the size is
the wrapped rounding. -/
theorem C5_stride_and_size_without_overflow (o : Oracle) (e : env_t)
    (h : leanloader_image_info)
    (hok : (leanloader_load o e h).ret = 1)
    (hsz : (leanloader_load o e h).info.bd.w * (leanloader_load o e h).info.bd.h * 4
      + 63 < 2 ^ 32)
    (hw4 : (leanloader_load o e h).info.bd.w * 4 < 2 ^ 31) :
    (leanloader_load o e h).info.bd.stride =
      ((leanloader_load o e h).info.bd.w * 4 : Int) ∧
    NativeCall.globalAllocCall (leanloader_env_init o e).env.GlobalAlloc 64
      (roundUp64 ((leanloader_load o e h).info.bd.w *
        (leanloader_load o e h).info.bd.h * 4))
      ∈ (leanloader_load o e h).trace := by
  obtain ⟨-, -, hstride, hmem⟩ := leanloader_load_success_shape o e h hok
  set W := (leanloader_load o e h).info.bd.w with hWdef
  set H := (leanloader_load o e h).info.bd.h with hHdef
  constructor
  · rw [hstride, Nat.mod_eq_of_lt (lt_trans hw4 (by norm_num)), i32ofU32,
      if_pos hw4]
    push_cast
    ring
  · have hWH : W * H < 2 ^ 32 := by nlinarith
    have hWH4 : W * H * 4 < 2 ^ 32 := by omega
    have heq : Nat.land ((W * H % 2 ^ 32 * 4 % 2 ^ 32 + 63) % 2 ^ 32) (2 ^ 32 - 64)
        = roundUp64 (W * H * 4) := by
      rw [Nat.mod_eq_of_lt hWH, Nat.mod_eq_of_lt hWH4,
        Nat.mod_eq_of_lt (by omega : W * H * 4 + 63 < 2 ^ 32),
        land_mask64 _ (by omega : W * H * 4 + 63 < 2 ^ 32)]
      rfl
    rw [← heq]
    exact hmem

/-- Claim C5 witness: the spec's own 10×10 scenario — stride 40 and an
allocation request of 448 bytes. -/
theorem C5_stride_and_size_without_overflow_witness :
    (leanloader_load oracleBase env0 info0).info.bd.stride = 40 ∧
    NativeCall.globalAllocCall 3 64 448 ∈
      (leanloader_load oracleBase env0 info0).trace := by
  have h := C5_stride_and_size_without_overflow oracleBase env0 info0
    (by decide) (by decide) (by decide)
  exact ⟨h.1, h.2⟩

theorem leanloader_load_alloc_call (o : Oracle) (e : env_t)
    (h : leanloader_image_info)
    (hinit : (leanloader_env_init o e).ret ≠ 0)
    (hdec : (o.createBitmapFromFile h.name).2 = 0)
    (hws : (o.getImageWidth (o.createBitmapFromFile h.name).1).2 = 0)
    (hhs : (o.getImageHeight (o.createBitmapFromFile h.name).1).2 = 0) :
    NativeCall.globalAllocCall (leanloader_env_init o e).env.GlobalAlloc 64
      (Nat.land (((o.getImageWidth (o.createBitmapFromFile h.name).1).1 % 2 ^ 32 *
        ((o.getImageHeight (o.createBitmapFromFile h.name).1).1 % 2 ^ 32)
        % 2 ^ 32 * 4 % 2 ^ 32 + 63) % 2 ^ 32) (2 ^ 32 - 64))
      ∈ (leanloader_load o e h).trace := by
  simp only [leanloader_load]
  split_ifs <;> simp_all

/-- Claim C10 as amended: the allocation size is computed in `u32` wraparound
arithmetic as `((w*h*4) + 63) & ~63` with no overflow check; for every image
whose reported `u32` dimensions satisfy `w*h*4 ≥ 2^32`, the value passed to
`GlobalAlloc` is `64 * (((w*h*4 mod 2^32) + 63 mod 2^32) / 64)` — equal to
the mathematical rounding `roundUp64 (w*h*4 mod 2^32)` whenever
`w*h*4 mod 2^32 ≤ 2^32 - 64` (the `+ 63` can wrap once more above that) —
and in every such case strictly smaller than the pixel data size `w*h*4`. -/
theorem C10_wrapped_alloc_size (o : Oracle) (e : env_t)
    (hnd : leanloader_image_info) (w h : Nat)
    (hinit : (leanloader_env_init o e).ret ≠ 0)
    (hdec : (o.createBitmapFromFile hnd.name).2 = 0)
    (hwv : o.getImageWidth (o.createBitmapFromFile hnd.name).1 = (w, 0))
    (hhv : o.getImageHeight (o.createBitmapFromFile hnd.name).1 = (h, 0))
    (hw32 : w < 2 ^ 32) (hh32 : h < 2 ^ 32)
    (hbig : w * h * 4 ≥ 2 ^ 32) :
    NativeCall.globalAllocCall (leanloader_env_init o e).env.GlobalAlloc 64
        (64 * ((w * h * 4 % 2 ^ 32 + 63) % 2 ^ 32 / 64))
      ∈ (leanloader_load o e hnd).trace ∧
    64 * ((w * h * 4 % 2 ^ 32 + 63) % 2 ^ 32 / 64) < w * h * 4 ∧
    (w * h * 4 % 2 ^ 32 ≤ 2 ^ 32 - 64 →
      64 * ((w * h * 4 % 2 ^ 32 + 63) % 2 ^ 32 / 64) =
        roundUp64 (w * h * 4 % 2 ^ 32)) := by
  refine ⟨?_, ?_, ?_⟩
  · have hmem := leanloader_load_alloc_call o e hnd hinit hdec
      (by rw [hwv]) (by rw [hhv])
    rw [hwv, hhv] at hmem
    have hmul4 : w * h % 2 ^ 32 * 4 % 2 ^ 32 = w * h * 4 % 2 ^ 32 := by
      conv_rhs => rw [Nat.mul_mod]
      norm_num
    have harg : (w % 2 ^ 32 * (h % 2 ^ 32) % 2 ^ 32 * 4 % 2 ^ 32 + 63) % 2 ^ 32
        = (w * h * 4 % 2 ^ 32 + 63) % 2 ^ 32 := by
      rw [Nat.mod_eq_of_lt hw32, Nat.mod_eq_of_lt hh32, hmul4]
    rw [harg, land_mask64 _ (Nat.mod_lt _ (by norm_num))] at hmem
    exact hmem
  · calc 64 * ((w * h * 4 % 2 ^ 32 + 63) % 2 ^ 32 / 64)
        ≤ (w * h * 4 % 2 ^ 32 + 63) % 2 ^ 32 := by
          rw [mul_comm]
          exact Nat.div_mul_le_self _ 64
      _ < 2 ^ 32 := Nat.mod_lt _ (by norm_num)
      _ ≤ w * h * 4 := hbig
  · intro hle
    have hlt : w * h * 4 % 2 ^ 32 + 63 < 2 ^ 32 := by omega
    rw [Nat.mod_eq_of_lt hlt]
    rfl

/-- Claim C10 witness: a 2^30 × 2 image; `w*h*4 = 2^33 ≥ 2^32` wraps to 0,
so the allocator is asked for 0 bytes — strictly smaller than the 2^33-byte
pixel data — and 0 here equals the rounding of `w*h*4 mod 2^32`. -/
theorem C10_wrapped_alloc_size_witness :
    NativeCall.globalAllocCall 3 64 0 ∈ (leanloader_load oracleTall env0 info0).trace ∧
    (0 : Nat) < 2 ^ 30 * 2 * 4 ∧
    64 * ((2 ^ 30 * 2 * 4 % 2 ^ 32 + 63) % 2 ^ 32 / 64) =
      roundUp64 (2 ^ 30 * 2 * 4 % 2 ^ 32) := by
  have h := C10_wrapped_alloc_size oracleTall env0 info0 (2 ^ 30) 2
    (by decide) rfl rfl rfl (by norm_num) (by norm_num) (by norm_num)
  refine ⟨?_, by norm_num, h.2.2 (by norm_num)⟩
  have h1 := h.1
  norm_num at h1
  exact h1

theorem leanloader_env_init_pos (o : Oracle) (e : env_t) (he : e.refcnt ≠ 0) :
    leanloader_env_init o e = ⟨{ e with refcnt := e.refcnt + 1 }, e.refcnt + 1, []⟩ := by
  simp [leanloader_env_init, he]

theorem leanloader_env_deinit_zero (e : env_t) (he : e.refcnt = 0) :
    leanloader_env_deinit e = ⟨e, 0, []⟩ := by
  simp [leanloader_env_deinit, he]

theorem leanloader_env_deinit_one (e : env_t) (he : e.refcnt = 1) :
    leanloader_env_deinit e = ⟨{ e with refcnt := 0 }, 0,
      [NativeCall.gdipShutdownCall e.GdipShutdown e.token,
       NativeCall.freeLibraryCall e.FreeLibrary e.gdiplus]⟩ := by
  simp [leanloader_env_deinit, he]

theorem leanloader_env_deinit_ge_two (e : env_t) (he : 2 ≤ e.refcnt) :
    leanloader_env_deinit e =
      ⟨{ e with refcnt := e.refcnt - 1 }, e.refcnt - 1, []⟩ := by
  simp only [leanloader_env_deinit]
  split_ifs <;> simp_all <;> omega

theorem runRegOps_cons (o : Oracle) (e : env_t) (op : RegOp) (rest : List RegOp) :
    runRegOps o e (op :: rest) =
      ((runRegOps o (applyRegOp o e op).1 rest).1,
       (applyRegOp o e op).2 ++ (runRegOps o (applyRegOp o e op).1 rest).2) := rfl

theorem runRegOps_from_live (o : Oracle) :
    ∀ (ops : List RegOp) (e : env_t), 0 < e.refcnt →
      (∀ i, 0 < i → i < ops.length → 0 < (runRegOps o e (ops.take i)).1.refcnt) →
      (runRegOps o e ops).1.refcnt = 0 →
      countStartups (runRegOps o e ops).2 = 0 ∧
      countShutdowns (runRegOps o e ops).2 = 1 := by
  intro ops
  induction ops with
  | nil =>
    intro e he _ hfin
    simp [runRegOps] at hfin
    omega
  | cons op rest ih =>
    intro e he hmid hfin
    cases op with
    | acquire =>
      have hne : e.refcnt ≠ 0 := by omega
      have hs : applyRegOp o e RegOp.acquire =
          ({ e with refcnt := e.refcnt + 1 }, []) := by
        simp [applyRegOp, leanloader_env_init_pos o e hne]
      rw [runRegOps_cons, hs] at hfin ⊢
      have hmid' : ∀ i, 0 < i → i < rest.length →
          0 < (runRegOps o { e with refcnt := e.refcnt + 1 } (rest.take i)).1.refcnt := by
        intro i hi hlen
        have hm := hmid (i + 1) (by omega) (by simp; omega)
        rw [List.take_succ_cons, runRegOps_cons, hs] at hm
        exact hm
      obtain ⟨c1, c2⟩ := ih { e with refcnt := e.refcnt + 1 } (by simp) hmid' hfin
      simp [countStartups, countShutdowns] at c1 c2 ⊢
      exact ⟨c1, c2⟩
    | release =>
      by_cases h1 : e.refcnt = 1
      · have hs : applyRegOp o e RegOp.release =
            ({ e with refcnt := 0 },
             [NativeCall.gdipShutdownCall e.GdipShutdown e.token,
              NativeCall.freeLibraryCall e.FreeLibrary e.gdiplus]) := by
          simp [applyRegOp, leanloader_env_deinit_one e h1]
        cases rest with
        | nil =>
          rw [runRegOps_cons, hs]
          simp [runRegOps, countStartups, countShutdowns, isStartupCall, isShutdownCall]
        | cons op2 rest2 =>
          exfalso
          have hm := hmid 1 (by omega) (by simp)
          rw [show (RegOp.release :: op2 :: rest2).take 1 = [RegOp.release] by simp,
            runRegOps_cons, hs] at hm
          simp [runRegOps] at hm
      · have h2 : 2 ≤ e.refcnt := by omega
        have hs : applyRegOp o e RegOp.release =
            ({ e with refcnt := e.refcnt - 1 }, []) := by
          simp [applyRegOp, leanloader_env_deinit_ge_two e h2]
        rw [runRegOps_cons, hs] at hfin ⊢
        have hmid' : ∀ i, 0 < i → i < rest.length →
            0 < (runRegOps o { e with refcnt := e.refcnt - 1 } (rest.take i)).1.refcnt := by
          intro i hi hlen
          have hm := hmid (i + 1) (by omega) (by simp; omega)
          rw [List.take_succ_cons, runRegOps_cons, hs] at hm
          exact hm
        obtain ⟨c1, c2⟩ := ih { e with refcnt := e.refcnt - 1 } (by simp; omega) hmid' hfin
        simp [countStartups, countShutdowns] at c1 c2 ⊢
        exact ⟨c1, c2⟩

theorem leanloader_env_init_zero_success_counts (o : Oracle) (e : env_t)
    (h0 : e.refcnt = 0) (hmod : o.loadLibrary "gdiplus.dll" ≠ 0)
    (hst : o.startupStatus = 0) :
    (leanloader_env_init o e).env.refcnt = 1 ∧
    countStartups (leanloader_env_init o e).trace = 1 ∧
    countShutdowns (leanloader_env_init o e).trace = 0 := by
  simp [leanloader_env_init, h0, hmod, hst, countStartups, countShutdowns,
    isStartupCall, isShutdownCall]

/-- Claim C7: across a sequence of matched ensureReady/release calls forming
one overlapping session (first call is an acquire from count 0, the count
stays positive at every intermediate point and returns to 0 at the end, the
gdiplus module loads and startup succeeds), the subsystem startup entry point
is invoked exactly once and the shutdown entry point exactly once; moreover
an acquire while the count is positive only increments the count (same state
otherwise, no native calls, hence no re-resolution), and a release while the
count is 0 is a no-op. -/
theorem C7_overlapping_sessions_single_startup_shutdown (o : Oracle) (e : env_t)
    (ops : List RegOp)
    (hmod : o.loadLibrary "gdiplus.dll" ≠ 0) (hst : o.startupStatus = 0)
    (h0 : e.refcnt = 0)
    (hmid : ∀ i, i < (RegOp.acquire :: ops).length → 0 < i →
      0 < (runRegOps o e ((RegOp.acquire :: ops).take i)).1.refcnt)
    (hfin : (runRegOps o e (RegOp.acquire :: ops)).1.refcnt = 0) :
    (countStartups (runRegOps o e (RegOp.acquire :: ops)).2 = 1 ∧
     countShutdowns (runRegOps o e (RegOp.acquire :: ops)).2 = 1) ∧
    (∀ e' : env_t, 0 < e'.refcnt →
      leanloader_env_init o e' =
        ⟨{ e' with refcnt := e'.refcnt + 1 }, e'.refcnt + 1, []⟩) ∧
    (∀ e' : env_t, e'.refcnt = 0 → leanloader_env_deinit e' = ⟨e', 0, []⟩) := by
  obtain ⟨hr1, hc1, hc0⟩ := leanloader_env_init_zero_success_counts o e h0 hmod hst
  have hs1 : (applyRegOp o e RegOp.acquire).1 = (leanloader_env_init o e).env := rfl
  have hs2 : (applyRegOp o e RegOp.acquire).2 = (leanloader_env_init o e).trace := rfl
  refine ⟨?_, ?_, ?_⟩
  · rw [runRegOps_cons] at hfin ⊢
    rw [hs1] at hfin
    have hmid' : ∀ i, 0 < i → i < ops.length →
        0 < (runRegOps o (leanloader_env_init o e).env (ops.take i)).1.refcnt := by
      intro i hi hlen
      have hm := hmid (i + 1) (by simp; omega) (by omega)
      rw [List.take_succ_cons, runRegOps_cons, hs1] at hm
      exact hm
    obtain ⟨c1, c2⟩ := runRegOps_from_live o ops (leanloader_env_init o e).env
      (by rw [hr1]; omega) hmid' hfin
    rw [hs1, hs2]
    constructor
    · show countStartups (_ ++ _) = 1
      rw [countStartups, List.countP_append, ← countStartups, ← countStartups,
        hc1, c1]
    · show countShutdowns (_ ++ _) = 1
      rw [countShutdowns, List.countP_append, ← countShutdowns, ← countShutdowns,
        hc0, c2]
  · intro e' he'
    exact leanloader_env_init_pos o e' (by omega)
  · intro e' he'
    exact leanloader_env_deinit_zero e' he'

/-- Claim C7 witness: two overlapping sessions — acquire, acquire, release,
release from a fresh registry — make exactly one startup and one shutdown
call. -/
theorem C7_overlapping_sessions_single_startup_shutdown_witness :
    countStartups (runRegOps oracleBase env0
      [RegOp.acquire, RegOp.acquire, RegOp.release, RegOp.release]).2 = 1 ∧
    countShutdowns (runRegOps oracleBase env0
      [RegOp.acquire, RegOp.acquire, RegOp.release, RegOp.release]).2 = 1 :=
  (C7_overlapping_sessions_single_startup_shutdown oracleBase env0
    [RegOp.acquire, RegOp.release, RegOp.release]
    (by decide) (by decide) (by decide)
    (by decide) (by decide)).1
